import Mathlib

/-!
Verification of the DKB challenge-resolution and approval-confirmation
subsystem (files `server/dkb_fetch.py` and `server/get_captcha_token.py`).
Each Python function relevant to the claims is shallowly embedded as an
executable Lean definition; while loops become structural recursion on the
number of loop entries still permitted by the loop guard.
-/

/-- Model of `json.loads(result.stdout)` inside `get_captcha_token`:
either the text is not valid JSON (`json.loads` raises), or it parses to an
object whose field `success` has the given truthiness and whose field
`token` is the given optional string (`none` models a missing `token` key,
for which `len(token)` raises `TypeError`). -/
inductive StdoutData where
  | invalidJson : StdoutData
  | json (success : Bool) (token : Option String) : StdoutData

deriving instance DecidableEq for StdoutData

/-- Outcome of one `subprocess.run` attempt inside `get_captcha_token`
(`server/dkb_fetch.py` lines 31-53): the run can raise
`subprocess.TimeoutExpired`, raise some other exception, or complete with a
return code and a stdout whose JSON parse is modelled by `StdoutData`. -/
inductive AttemptOutcome where
  | timeoutExpired : AttemptOutcome
  | exceptionRaised : AttemptOutcome
  | completed (returncode : Int) (stdout : StdoutData) : AttemptOutcome

deriving instance DecidableEq for AttemptOutcome

/-- Body of one iteration of the retry loop of `get_captcha_token`
(`server/dkb_fetch.py` lines 31-53): the attempt yields `some token` exactly
when the child completed with return code 0, its stdout parsed as JSON, the
`success` field was truthy and the `token` field was present; every other
outcome (nonzero return code, invalid JSON, falsy `success`, missing
`token`, timeout, any exception) is absorbed by the surrounding
`try`/`except` handlers and yields `none`. -/
def attemptToken : AttemptOutcome → Option String
  | .timeoutExpired => none
  | .exceptionRaised => none
  | .completed returncode stdout =>
    if returncode = 0 then
      match stdout with
      | .invalidJson => none
      | .json success token =>
        if success then
          match token with
          | some t => some t
          | none => none
        else none
    else none

/-- The fixed cooldown of `time.sleep(5)` between captcha attempts
(`server/dkb_fetch.py` line 57). -/
def captchaCooldownSeconds : Nat := 5

/-- Embeds `get_captcha_token` (`server/dkb_fetch.py` lines 16-61).
The input list holds the outcome of attempts `1 .. max_retries` in order
(`for attempt in range(1, max_retries + 1)`); the result is the returned
token (`none` embeds Python `None`), the number of attempts actually
performed, and the list of sleep durations executed (a sleep happens only
when `attempt < max_retries`, i.e. when further outcomes remain). -/
def get_captcha_token : List AttemptOutcome → Option String × Nat × List Nat
  | [] => (none, 0, [])
  | [o] =>
    match attemptToken o with
    | some t => (some t, 1, [])
    | none => (none, 1, [])
  | o :: o2 :: rest =>
    match attemptToken o with
    | some t => (some t, 1, [])
    | none =>
      let q := get_captcha_token (o2 :: rest)
      (q.1, q.2.1 + 1, captchaCooldownSeconds :: q.2.2)

/-- Verification status carried by a well-formed MFA polling payload,
as the spec classifies it: success, failure/denial, or anything else. -/
inductive VerificationStatus where
  | success : VerificationStatus
  | denied : VerificationStatus
  | pending : VerificationStatus

deriving instance DecidableEq for VerificationStatus

/-- Modelled from the spec: `APPAuthentication._check` is defined in the
external `dkb_robo` library and is not part of this repository; only its
caller `patched_app_finalize` is. Per the spec, a success status is
Approved (terminal: `mfa_completed = True`), a failure/denied status is
Rejected (terminal: the check aborts the poll loop, modelled as
`Except.error`), and anything else leaves the poll loop waiting
(`mfa_completed = False`). -/
def app_auth_check : VerificationStatus → Except Unit Bool
  | .success => .ok true
  | .denied => .error ()
  | .pending => .ok false

/-- One response of the MFA status endpoint as seen by
`patched_app_finalize` (`server/dkb_fetch.py` lines 130-150): a non-200
status code, a 200 response missing `data.attributes.verificationStatus`,
or a 200 response with a verification status. -/
inductive PollResponse where
  | httpError (code : Nat) : PollResponse
  | malformed : PollResponse
  | wellFormed (status : VerificationStatus) : PollResponse

deriving instance DecidableEq for PollResponse

/-- A polling response on which the loop of `patched_app_finalize` keeps
waiting: a failed request, a malformed payload, or a well-formed payload
whose status is neither success nor denial. -/
def pollContinues : PollResponse → Bool
  | .httpError _ => true
  | .malformed => true
  | .wellFormed s =>
    match app_auth_check s with
    | .ok false => true
    | _ => false

/-- Result of `patched_app_finalize`, each constructor carrying the number
of polling requests issued: `completed` embeds returning
`mfa_completed = True`, `timedOut` embeds returning `mfa_completed = False`
after the loop guard fails, and `rejected` embeds the check aborting the
loop on a denied status. -/
inductive MfaOutcome where
  | completed (polls : Nat) : MfaOutcome
  | rejected (polls : Nat) : MfaOutcome
  | timedOut (polls : Nat) : MfaOutcome

deriving instance DecidableEq for MfaOutcome

/-- The loop `while cnt <= max_iterations` of `patched_app_finalize`
(`server/dkb_fetch.py` lines 127-153). `responses i` is the response of the
i-th GET of the challenge status (i counted from 1, equal to `cnt` right
after its increment); `remaining` stands for `max_iterations + 1 - cnt`,
the number of loop entries the guard still permits, so `remaining = 0`
is exactly `cnt > max_iterations` and the loop exits with
`mfa_completed = False`. On each entry the response is fetched, `cnt` is
incremented, and a well-formed payload is passed to the check, whose
`true` result breaks out of the loop. -/
def finalize_go (responses : Nat → PollResponse) : Nat → Nat → MfaOutcome
  | cnt, 0 => .timedOut cnt
  | cnt, remaining + 1 =>
    match responses (cnt + 1) with
    | .httpError _ => finalize_go responses (cnt + 1) remaining
    | .malformed => finalize_go responses (cnt + 1) remaining
    | .wellFormed s =>
      match app_auth_check s with
      | .error _ => .rejected (cnt + 1)
      | .ok true => .completed (cnt + 1)
      | .ok false => finalize_go responses (cnt + 1) remaining

/-- `max_iterations = 24` from `patched_app_finalize`
(`server/dkb_fetch.py` line 124). -/
def max_iterations : Nat := 24

/-- Embeds `patched_app_finalize` (`server/dkb_fetch.py` lines 118-157):
`cnt` starts at 0, so the guard `cnt <= max_iterations` permits
`max_iterations + 1` loop entries. -/
def patched_app_finalize (responses : Nat → PollResponse) : MfaOutcome :=
  finalize_go responses 0 (max_iterations + 1)

/-- A redemption `NetworkEvent` buffered by the response handler of
`get_dkb_redeem_token` (`server/get_captcha_token.py` lines 32-41).
`extract` models fetching its response body and reading
`json.loads(res[0])["data"]["redeem_token"]`: `some t` when that yields
token `t`, `none` when any exception is raised along the way. -/
structure RedeemEvent where
  extract : Option String

deriving instance DecidableEq for RedeemEvent

/-- Return value of `get_redeem_response` and `get_dkb_redeem_token`:
a token string, or Python `False`. -/
inductive RedeemResult where
  | token (t : String) : RedeemResult
  | failure : RedeemResult

deriving instance DecidableEq for RedeemResult

/-- The tail of `get_redeem_response` (`server/get_captcha_token.py`
lines 53-66): if the redemption event list is nonempty, extract the token
from the body of its last element (`redeem_events[-1]`), converting any
extraction exception to `False`; if the list is empty, return `False`. -/
def extractLast (evs : List RedeemEvent) : RedeemResult :=
  match evs.getLast? with
  | some ev =>
    match ev.extract with
    | some t => .token t
    | none => .failure
  | none => .failure

/-- The waiting loop of `get_redeem_response` (`server/get_captcha_token.py`
lines 44-52). `events t` is the snapshot of the redemption event list after
`t` one-second sleeps. The Python loop checks, at its r-th iteration
(`retries = r`, with `r - 1` sleeps elapsed), whether the list is empty and
`retries <= timeout`; if so it sleeps one second, otherwise it breaks.
Here `slept = r - 1` and `remaining = timeout - slept` counts the sleeps
the guard still permits; the function returns the number of sleeps elapsed
at loop exit. -/
def grr_wait (events : Nat → List RedeemEvent) : Nat → Nat → Nat
  | slept, 0 => slept
  | slept, remaining + 1 =>
    if (events slept).length = 0 then grr_wait events (slept + 1) remaining
    else slept

/-- Embeds `get_redeem_response` (`server/get_captcha_token.py`
lines 43-66): wait for the redemption event list to become nonempty (up to
`timeout` one-second sleeps), then extract the token from the last event of
the current list; returns the result together with the number of seconds
slept. -/
def get_redeem_response (events : Nat → List RedeemEvent) (timeout : Nat) :
    RedeemResult × Nat :=
  let slept := grr_wait events 0 timeout
  (extractLast (events slept), slept)

/-- Embeds `get_dkb_redeem_token` (`server/get_captcha_token.py`
lines 68-127). The browser interaction inside the `with SB(...)` block is
abstracted as `session`: `Except.error e` models any exception raised there
(page load, cookie banner, widget activation, event loop), which the outer
`except Exception` handler converts to `False`; `Except.ok events` models a
session that ran to the final await with `events` the observed redemption
event stream, whose result is returned unchanged. -/
def get_dkb_redeem_token (session : Except String (Nat → List RedeemEvent))
    (timeout : Nat) : RedeemResult :=
  match session with
  | .error _ => .failure
  | .ok events => (get_redeem_response events timeout).1

/-- A JSON value occurring in the child process's stdout line:
only strings and booleans occur there. -/
inductive JVal where
  | s (v : String) : JVal
  | b (v : Bool) : JVal

deriving instance DecidableEq for JVal

/-- A JSON object, as an ordered field list (what `json.dumps` of a Python
dict prints on one line). -/
abbrev JObj := List (String × JVal)

/-- The structured result crossing the process boundary. -/
inductive ChildResult where
  | success (token : String) : ChildResult
  | failure (error : String) : ChildResult

deriving instance DecidableEq for ChildResult

/-- Serializes a `ChildResult` to the JSON object the child prints
(`server/get_captcha_token.py` lines 134-145). -/
def childResultToJson : ChildResult → JObj
  | .success t => [("success", .b true), ("token", .s t)]
  | .failure e => [("success", .b false), ("error", .s e)]

/-- Parses the child's stdout object back into a `ChildResult`; anything
not of the two emitted shapes parses to `none`. -/
def parseChildOutput : JObj → Option ChildResult
  | [("success", .b true), ("token", .s t)] => some (.success t)
  | [("success", .b false), ("error", .s e)] => some (.failure e)
  | _ => none

/-- Well-formedness required by the process-boundary contract: a success
carries a nonempty token, a failure a nonempty error message. -/
def childResultWellFormed : ChildResult → Bool
  | .success t => t != ""
  | .failure e => e != ""

/-- Observable behaviour of one run of the child process: the JSON objects
printed to stdout (one per `print` reaching stdout) and the exit code. -/
structure ChildRun where
  stdout : List JObj
  exitCode : Nat

deriving instance DecidableEq for ChildRun

/-- Embeds the `__main__` block of `server/get_captcha_token.py`
(lines 130-146): `token` is the return value of `get_dkb_redeem_token`;
`if token:` is Python truthiness, false for `False` and for the empty
string, so the success line is printed and exit code 0 used exactly when a
nonempty token was returned, and otherwise one failure line is printed and
the exit code is 1. -/
def child_main (token : RedeemResult) : ChildRun :=
  match token with
  | .token t =>
    if t = "" then
      { stdout := [[("success", .b false), ("error", .s "Failed to get captcha token")]],
        exitCode := 1 }
    else
      { stdout := [[("success", .b true), ("token", .s t)]], exitCode := 0 }
  | .failure =>
    { stdout := [[("success", .b false), ("error", .s "Failed to get captcha token")]],
      exitCode := 1 }

/-- An HTTP response as consumed by `patched_token_get`: a status code and
the value of `response.json()` (abstracted as a string payload). -/
structure HttpResponse where
  status_code : Nat
  jsonBody : String

deriving instance DecidableEq for HttpResponse

/-- Result of `patched_token_get`: `stored` embeds assigning
`self.token_dic = response.json()`, `dkbError` embeds raising
`DKBRoboError` with the given message. -/
inductive TokenGetResult where
  | stored (token_dic : String) : TokenGetResult
  | dkbError (msg : String) : TokenGetResult

deriving instance DecidableEq for TokenGetResult

/-- The form-field dict `data_dic` built by `patched_token_get`
(`server/dkb_fetch.py` lines 80-86), in source order. -/
def token_get_data_dic (captcha_token dkb_user dkb_password : String) :
    List (String × String) :=
  [("captcha_token", captcha_token),
   ("grant_type", "banking_user_sca"),
   ("username", dkb_user),
   ("password", dkb_password),
   ("sca_type", "web-login")]

/-- Embeds `patched_token_get` (`server/dkb_fetch.py` lines 75-97):
build `data_dic`, POST it once to the token endpoint (`post` models
`self.client.post(self.base_url + "/token", data=data_dic)` — it is invoked
exactly once, there is no retry at this layer), store the JSON payload on
status 200 and raise `DKBRoboError` carrying the status code otherwise.
The submitted form is returned alongside the result. -/
def patched_token_get (captcha_token dkb_user dkb_password : String)
    (post : List (String × String) → HttpResponse) :
    TokenGetResult × List (String × String) :=
  let data_dic := token_get_data_dic captcha_token dkb_user dkb_password
  let response := post data_dic
  if response.status_code = 200 then
    (.stored response.jsonBody, data_dic)
  else
    (.dkbError ("Login failed: 1st factor authentication failed. RC: "
      ++ toString response.status_code), data_dic)

/-- Result of the captcha-check and first-factor stage of
`fetch_transactions`: `failureResult e` embeds returning
`json.dumps(dict(success=False, error=e))` (directly for a missing captcha
token; via the outer `except` handler when `patched_token_get` raises
`DKBRoboError`), and `loggedIn` abstracts everything after a successful
first-factor login. -/
inductive FetchAuthResult where
  | failureResult (error : String) : FetchAuthResult
  | loggedIn (token_dic : String) : FetchAuthResult

deriving instance DecidableEq for FetchAuthResult

/-- Embeds the authentication stage of `fetch_transactions`
(`server/dkb_fetch.py` lines 189-203): call `get_captcha_token` (with the
given attempt outcomes); if it yields no token — `None` or, by Python
truthiness of `if not captcha_token`, the empty string — return the
structured failure without any login request; otherwise patch the
authentication with the token and log in, which submits the first factor
via `patched_token_get` exactly once. The second component counts the
first-factor login submissions performed. -/
def fetch_transactions_auth (outcomes : List AttemptOutcome)
    (post : List (String × String) → HttpResponse)
    (username password : String) : FetchAuthResult × Nat :=
  match (get_captcha_token outcomes).1 with
  | none => (.failureResult "Failed to get captcha token", 0)
  | some tok =>
    if tok = "" then (.failureResult "Failed to get captcha token", 0)
    else
      match (patched_token_get tok username password post).1 with
      | .stored dic => (.loggedIn dic, 1)
      | .dkbError msg => (.failureResult msg, 1)

/-- If every attempt in the (nonempty) outcome list fails, the retry loop
performs one attempt per outcome, sleeps the cooldown between consecutive
attempts only, and returns `none`. -/
theorem gct_all_fail (outcomes : List AttemptOutcome)
    (hne : outcomes ≠ []) (hfail : ∀ x ∈ outcomes, attemptToken x = none) :
    get_captcha_token outcomes =
      (none, outcomes.length,
        List.replicate (outcomes.length - 1) captchaCooldownSeconds) := by
  induction outcomes with
  | nil => exact absurd rfl hne
  | cons o rest ih =>
    cases rest with
    | nil => simp [get_captcha_token, hfail o (by simp)]
    | cons o2 rs =>
      have h0 : attemptToken o = none := hfail o (by simp)
      have hrec := ih (by simp) (fun x hx => hfail x (by simp [hx]))
      simp [get_captcha_token, h0, hrec, List.replicate_succ]

/-- If every attempt before `o` fails and attempt `o` succeeds with token
`t`, the retry loop returns `t` at attempt `pre.length + 1` and performs no
further attempt. -/
theorem gct_first_success (pre rest : List AttemptOutcome) (o : AttemptOutcome)
    (t : String) (hpre : ∀ x ∈ pre, attemptToken x = none)
    (ho : attemptToken o = some t) :
    get_captcha_token (pre ++ o :: rest) =
      (some t, pre.length + 1, List.replicate pre.length captchaCooldownSeconds) := by
  induction pre with
  | nil =>
    cases rest with
    | nil => simp [get_captcha_token, ho]
    | cons r rs => simp [get_captcha_token, ho]
  | cons p ps ih =>
    have hp : attemptToken p = none := hpre p (by simp)
    have hrec := ih (fun x hx => hpre x (by simp [hx]))
    cases hq : ps ++ o :: rest with
    | nil => simp at hq
    | cons a as =>
      rw [hq] at hrec
      simp only [List.cons_append, hq]
      simp [get_captcha_token, hp, hrec, List.replicate_succ]

/-- Claim C3: for every run of `get_captcha_token`, if every attempt fails
or times out it performs exactly one attempt per available retry (never
one more), sleeps the fixed 5-second cooldown only between consecutive
attempts, and returns the failure value `None`; on the first successful
attempt it returns that attempt's token immediately and performs no
further attempts. -/
theorem get_captcha_token_spec (outcomes pre rest : List AttemptOutcome)
    (o : AttemptOutcome) (t : String) :
    (outcomes ≠ [] → (∀ x ∈ outcomes, attemptToken x = none) →
      get_captcha_token outcomes =
        (none, outcomes.length,
          List.replicate (outcomes.length - 1) captchaCooldownSeconds))
    ∧ ((∀ x ∈ pre, attemptToken x = none) → attemptToken o = some t →
      get_captcha_token (pre ++ o :: rest) =
        (some t, pre.length + 1, List.replicate pre.length captchaCooldownSeconds)) :=
  ⟨fun h1 h2 => gct_all_fail outcomes h1 h2,
   fun h1 h2 => gct_first_success pre rest o t h1 h2⟩

/-- Witness for C3: three failing attempts (a timeout, an exception, a
zero-exit child with unparsable stdout) give exactly three attempts and two
cooldowns and no token; one failing attempt followed by a successful one
returns the second attempt's token after exactly two attempts and one
cooldown, with a third outcome left unconsumed. -/
theorem get_captcha_token_spec_witness :
    get_captcha_token [.timeoutExpired, .exceptionRaised, .completed 0 .invalidJson] =
      (none, 3, List.replicate 2 captchaCooldownSeconds)
    ∧ get_captcha_token
        ([.timeoutExpired] ++ .completed 0 (.json true (some "tok")) :: [.exceptionRaised]) =
      (some "tok", 2, List.replicate 1 captchaCooldownSeconds) := by
  constructor
  · have h := (get_captcha_token_spec
      [.timeoutExpired, .exceptionRaised, .completed 0 .invalidJson]
      [] [] .timeoutExpired "x").1 (by decide) (by decide)
    simpa using h
  · have h := (get_captcha_token_spec [] [.timeoutExpired] [.exceptionRaised]
      (.completed 0 (.json true (some "tok"))) "tok").2 (by decide) (by decide)
    simpa using h

/-- Claim C8: in the parent's retry loop, an attempt counts as successful
exactly when the child exits with code 0 and its stdout parses as JSON with
a truthy success flag and a present token; a zero exit code with invalid
JSON or with a falsy success flag (and every other combination) is
absorbed as a failed attempt that consumes exactly one retry, the loop
continuing on the remaining attempts — `attemptToken` is total, so no
exception from result handling reaches the caller. -/
theorem attemptToken_success_iff (o : AttemptOutcome) (t : String) :
    (attemptToken o = some t ↔ o = .completed 0 (.json true (some t)))
    ∧ attemptToken (.completed 0 .invalidJson) = none
    ∧ (∀ tok, attemptToken (.completed 0 (.json false tok)) = none)
    ∧ (∀ o2 rest, attemptToken o = none →
        (get_captcha_token (o :: o2 :: rest)).1 = (get_captcha_token (o2 :: rest)).1
        ∧ (get_captcha_token (o :: o2 :: rest)).2.1 =
            (get_captcha_token (o2 :: rest)).2.1 + 1) := by
  refine ⟨?_, rfl, fun tok => rfl, ?_⟩
  · cases o with
    | timeoutExpired => simp [attemptToken]
    | exceptionRaised => simp [attemptToken]
    | completed rc sd =>
      by_cases hrc : rc = 0
      · subst hrc
        cases sd with
        | invalidJson => simp [attemptToken]
        | json success token =>
          cases success with
          | false => simp [attemptToken]
          | true =>
            cases token with
            | none => simp [attemptToken]
            | some u => simp [attemptToken]
      · simp [attemptToken, hrc, Ne.symm hrc]
  · intro o2 rest h
    constructor
    · simp [get_captcha_token, h]
    · simp [get_captcha_token, h]

/-- Witness for C8: a successful attempt shape yields its token, and a
zero-exit attempt with invalid JSON stdout consumes one retry before the
next attempt runs. -/
theorem attemptToken_success_iff_witness :
    attemptToken (.completed 0 (.json true (some "tok"))) = some "tok"
    ∧ (get_captcha_token
        [.completed 0 .invalidJson, .completed 0 (.json true (some "tok"))]).2.1 =
      (get_captcha_token [.completed 0 (.json true (some "tok"))]).2.1 + 1 := by
  constructor
  · exact (attemptToken_success_iff (.completed 0 (.json true (some "tok"))) "tok").1.mpr rfl
  · exact ((attemptToken_success_iff (.completed 0 .invalidJson) "tok").2.2.2
      (.completed 0 (.json true (some "tok"))) [] (by decide)).2

/-- Claim C1 (code bug): with `max_iterations = 24`, when every polling
response is HTTP 200 with a well-formed payload whose verification status
is never terminal, the loop of `patched_app_finalize` returns
`mfa_completed = False` only after `max_iterations + 1 = 25` polling
iterations — one more than the 24 stated by the claim and by the code's
own comment (`24 iterations × 5 seconds = 120 seconds`), because the guard
`while cnt <= max_iterations` with `cnt` starting at 0 admits 25 entries. -/
theorem patched_app_finalize_timeout_polls :
    patched_app_finalize (fun _ => .wellFormed .pending) =
      .timedOut (max_iterations + 1) := by
  rfl

/-- If every poll before the k-th keeps the loop waiting and the k-th poll
is a well-formed denied status, the loop aborts at poll k with the
rejection. -/
theorem finalize_go_reject (responses : Nat → PollResponse) (k : Nat) :
    ∀ remaining cnt, cnt < k → k ≤ cnt + remaining →
      (∀ i, cnt < i → i < k → pollContinues (responses i) = true) →
      responses k = .wellFormed .denied →
      finalize_go responses cnt remaining = .rejected k := by
  intro remaining
  induction remaining with
  | zero => intro cnt h1 h2 _ _; omega
  | succ n ih =>
    intro cnt h1 h2 hcont hk
    by_cases hek : cnt + 1 = k
    · rw [finalize_go, hek, hk]
      simp [app_auth_check]
    · have hlt : cnt + 1 < k := by omega
      have hc := hcont (cnt + 1) (by omega) hlt
      have hrec := ih (cnt + 1) hlt (by omega)
        (fun i hi1 hi2 => hcont i (by omega) hi2) hk
      rw [finalize_go]
      cases hr : responses (cnt + 1) with
      | httpError c => simpa [hr] using hrec
      | malformed => simpa [hr] using hrec
      | wellFormed s =>
        cases s with
        | pending => simpa [hr, app_auth_check] using hrec
        | success => rw [hr] at hc; simp [pollContinues, app_auth_check] at hc
        | denied => rw [hr] at hc; simp [pollContinues, app_auth_check] at hc

/-- Claim C2: whenever a polling iteration k (reachable because every
earlier iteration kept the loop waiting — transient HTTP errors, malformed
payloads, or non-terminal statuses) receives an HTTP 200 response with a
well-formed payload whose verification status is a denial, the loop stops
immediately at poll k and the run ends with the `rejected` outcome, a
constructor distinct from `completed` and `timedOut`; it does not continue
polling until the iteration budget is exhausted. -/
theorem patched_app_finalize_rejected (responses : Nat → PollResponse) (k : Nat)
    (h1 : 1 ≤ k) (h2 : k ≤ max_iterations + 1)
    (hprev : ∀ i, 1 ≤ i → i < k → pollContinues (responses i) = true)
    (hk : responses k = .wellFormed .denied) :
    patched_app_finalize responses = .rejected k := by
  unfold patched_app_finalize
  exact finalize_go_reject responses k (max_iterations + 1) 0 (by omega)
    (by omega) (fun i hi1 hi2 => hprev i (by omega) hi2) hk

/-- Witness for C2: a failed request at poll 1, a malformed payload at
poll 2, then a denied status at poll 3 makes the run end rejected after
exactly 3 of the 25 possible polls. -/
theorem patched_app_finalize_rejected_witness :
    patched_app_finalize (fun i =>
      if i = 1 then .httpError 500
      else if i = 2 then .malformed
      else if i = 3 then .wellFormed .denied
      else .wellFormed .pending) = .rejected 3 := by
  apply patched_app_finalize_rejected _ 3 (by omega) (by decide)
  · intro i hi1 hi2
    interval_cases i <;> decide
  · decide

/-- If the redemption event list stays empty forever, the waiting loop of
`get_redeem_response` exhausts its full budget: every permitted check finds
the list empty and sleeps. -/
theorem grr_wait_empty (events : Nat → List RedeemEvent)
    (hempty : ∀ s, events s = []) :
    ∀ remaining slept, grr_wait events slept remaining = slept + remaining := by
  intro remaining
  induction remaining with
  | zero => intro slept; rfl
  | succ n ih =>
    intro slept
    rw [grr_wait]
    simp [hempty slept]
    rw [ih (slept + 1)]
    omega

/-- If the redemption event list is empty before time `t0` and nonempty at
time `t0 ≤ timeout`, the waiting loop exits after exactly `t0` sleeps. -/
theorem grr_wait_first (events : Nat → List RedeemEvent) (t0 : Nat)
    (hfirst : ∀ s, s < t0 → events s = []) (hne : events t0 ≠ []) :
    ∀ remaining slept, slept ≤ t0 → t0 ≤ slept + remaining →
      grr_wait events slept remaining = t0 := by
  intro remaining
  induction remaining with
  | zero =>
    intro slept hle hge
    rw [grr_wait]
    omega
  | succ n ih =>
    intro slept hle hge
    by_cases hs : slept = t0
    · subst hs
      have hlen : (events slept).length ≠ 0 := by
        simpa [List.length_eq_zero] using hne
      rw [grr_wait, if_neg hlen]
    · have hlt : slept < t0 := by omega
      rw [grr_wait]
      simp only [hfirst slept hlt, List.length_nil, if_true, reduceIte]
      exact ih (slept + 1) (by omega) (by omega)

/-- Claim C4: for every run of the redemption-token wait loop, if the event
list never becomes nonempty, the loop returns `False` only after the full
`timeout` seconds have elapsed, never prematurely; and if the event list
first becomes nonempty at time `t0` within the budget, the loop exits after
exactly `t0` seconds (fast path, not waiting out the remaining budget) and
returns the token extracted from the body of the last redemption event
observed. -/
theorem get_redeem_response_spec (events : Nat → List RedeemEvent)
    (timeout t0 : Nat) (ev : RedeemEvent) (t : String) :
    ((∀ s, events s = []) →
      get_redeem_response events timeout = (.failure, timeout))
    ∧ ((∀ s, s < t0 → events s = []) → t0 ≤ timeout →
        (events t0).getLast? = some ev → ev.extract = some t →
        get_redeem_response events timeout = (.token t, t0)) := by
  constructor
  · intro hempty
    show (extractLast (events (grr_wait events 0 timeout)), grr_wait events 0 timeout) = _
    rw [grr_wait_empty events hempty timeout 0]
    simp [hempty, extractLast]
  · intro hfirst ht hlast hex
    have hne : events t0 ≠ [] := by
      intro h
      rw [h] at hlast
      simp at hlast
    show (extractLast (events (grr_wait events 0 timeout)), grr_wait events 0 timeout) = _
    rw [grr_wait_first events t0 hfirst hne timeout 0 (by omega) (by omega)]
    simp [extractLast, hlast, hex]

/-- Witness for C4: with no event ever, the loop returns `False` after the
full 7-second budget; with the first (and last) event appearing at second 3
of a 10-second budget carrying token abc123, the loop returns that token
after exactly 3 seconds. -/
theorem get_redeem_response_spec_witness :
    get_redeem_response (fun _ => []) 7 = (.failure, 7)
    ∧ get_redeem_response (fun s => if 3 ≤ s then [⟨some "abc123"⟩] else []) 10 =
        (.token "abc123", 3) := by
  constructor
  · exact (get_redeem_response_spec (fun _ => []) 7 0 ⟨none⟩ "").1 (fun s => rfl)
  · refine (get_redeem_response_spec (fun s => if 3 ≤ s then [⟨some "abc123"⟩] else [])
      10 3 ⟨some "abc123"⟩ "abc123").2 ?_ (by omega) rfl rfl
    intro s hs
    have h3 : ¬ 3 ≤ s := by omega
    simp [h3]

/-- Claim C9: if the redemption event list is first nonempty at time
`t0 ≤ timeout` but fetching the last event's response body or extracting
the token field raises, `get_redeem_response` returns `False` at time `t0`
immediately; it does not resume waiting for further redemption events
within the remaining budget. -/
theorem get_redeem_response_extract_failure (events : Nat → List RedeemEvent)
    (timeout t0 : Nat) (ev : RedeemEvent)
    (hfirst : ∀ s, s < t0 → events s = []) (ht : t0 ≤ timeout)
    (hlast : (events t0).getLast? = some ev) (hex : ev.extract = none) :
    get_redeem_response events timeout = (.failure, t0) := by
  have hne : events t0 ≠ [] := by
    intro h
    rw [h] at hlast
    simp at hlast
  show (extractLast (events (grr_wait events 0 timeout)), grr_wait events 0 timeout) = _
  rw [grr_wait_first events t0 hfirst hne timeout 0 (by omega) (by omega)]
  simp [extractLast, hlast, hex]

/-- Witness for C9: an event whose body extraction fails, appearing at
second 2 of a 9-second budget, makes the loop return `False` at second 2
rather than waiting out the remaining 7 seconds. -/
theorem get_redeem_response_extract_failure_witness :
    get_redeem_response (fun s => if 2 ≤ s then [⟨none⟩] else []) 9 = (.failure, 2) := by
  refine get_redeem_response_extract_failure (fun s => if 2 ≤ s then [⟨none⟩] else [])
    9 2 ⟨none⟩ ?_ (by omega) rfl rfl
  intro s hs
  have h2 : ¬ 2 ≤ s := by omega
  simp [h2]

/-- Claim C7: every exception raised during the browser interaction inside
`get_dkb_redeem_token` is caught by the outer handler and converted to the
failure return value `False`; the function's result type has no error case,
so no exception propagates out as a crash, and a session that completes
returns the result of `get_redeem_response` unchanged. -/
theorem get_dkb_redeem_token_no_crash (e : String) (timeout : Nat)
    (events : Nat → List RedeemEvent) :
    get_dkb_redeem_token (.error e) timeout = .failure
    ∧ get_dkb_redeem_token (.ok events) timeout =
        (get_redeem_response events timeout).1 :=
  ⟨rfl, rfl⟩

/-- Claim C6: for every run of the child captcha-solver process, stdout
carries exactly one structured line, that line parses to either a success
with a nonempty token or a failure with a nonempty error (never both,
never neither), serializing the parsed result reproduces the line
(round-trip), and the exit code is 0 exactly when the result is a
success. -/
theorem child_main_protocol (token : RedeemResult) :
    ∃ line r, (child_main token).stdout = [line]
      ∧ parseChildOutput line = some r
      ∧ childResultToJson r = line
      ∧ childResultWellFormed r = true
      ∧ ((child_main token).exitCode = 0 ↔ ∃ u, r = .success u) := by
  cases token with
  | failure =>
    refine ⟨[("success", .b false), ("error", .s "Failed to get captcha token")],
      .failure "Failed to get captcha token", rfl, rfl, rfl, by decide, ?_⟩
    constructor
    · intro h
      exact absurd h (by decide)
    · rintro ⟨u, hu⟩
      cases hu
  | token t =>
    by_cases ht : t = ""
    · subst ht
      refine ⟨[("success", .b false), ("error", .s "Failed to get captcha token")],
        .failure "Failed to get captcha token", rfl, rfl, rfl, by decide, ?_⟩
      constructor
      · intro h
        exact absurd h (by decide)
      · rintro ⟨u, hu⟩
        cases hu
    · refine ⟨[("success", .b true), ("token", .s t)], .success t, ?_, rfl, rfl, ?_, ?_⟩
      · simp [child_main, ht]
      · simpa [childResultWellFormed] using ht
      · constructor
        · intro _
          exact ⟨t, rfl⟩
        · intro _
          simp [child_main, ht]

/-- Witness for C6: the run on the concrete token abc. -/
theorem child_main_protocol_witness :
    ∃ line r, (child_main (.token "abc")).stdout = [line]
      ∧ parseChildOutput line = some r
      ∧ childResultToJson r = line
      ∧ childResultWellFormed r = true
      ∧ ((child_main (.token "abc")).exitCode = 0 ↔ ∃ u, r = .success u) :=
  child_main_protocol (.token "abc")

/-- Claim C5: `patched_token_get` submits exactly the form fields
captcha_token, grant_type = banking_user_sca, username, password and
sca_type = web-login (in source order) to the token endpoint; on HTTP 200
it stores the returned token payload, and on every non-200 status it fails
immediately with a `DKBRoboError` carrying the status code — the POST
oracle is applied exactly once in the definition, so there is no retry at
this layer. -/
theorem patched_token_get_spec (ct u p : String)
    (post : List (String × String) → HttpResponse) :
    (patched_token_get ct u p post).2 =
      [("captcha_token", ct), ("grant_type", "banking_user_sca"),
       ("username", u), ("password", p), ("sca_type", "web-login")]
    ∧ ((post (token_get_data_dic ct u p)).status_code = 200 →
        (patched_token_get ct u p post).1 =
          .stored (post (token_get_data_dic ct u p)).jsonBody)
    ∧ ((post (token_get_data_dic ct u p)).status_code ≠ 200 →
        (patched_token_get ct u p post).1 =
          .dkbError ("Login failed: 1st factor authentication failed. RC: "
            ++ toString (post (token_get_data_dic ct u p)).status_code)) := by
  refine ⟨?_, ?_, ?_⟩
  · by_cases h : (post (token_get_data_dic ct u p)).status_code = 200
    · simp only [token_get_data_dic] at h
      simp [patched_token_get, token_get_data_dic, h]
    · simp only [token_get_data_dic] at h
      simp [patched_token_get, token_get_data_dic, h]
  · intro h
    simp [patched_token_get, h]
  · intro h
    simp [patched_token_get, h]

/-- Witness for C5: a 200 response stores the payload; a 403 response
yields the authentication failure carrying status code 403. -/
theorem patched_token_get_spec_witness :
    (patched_token_get "c" "u" "p" (fun _ => ⟨200, "payload"⟩)).1 = .stored "payload"
    ∧ (patched_token_get "c" "u" "p" (fun _ => ⟨403, "nope"⟩)).1 =
        .dkbError ("Login failed: 1st factor authentication failed. RC: "
          ++ toString (403 : Nat)) := by
  constructor
  · exact (patched_token_get_spec "c" "u" "p" (fun _ => ⟨200, "payload"⟩)).2.1 rfl
  · exact (patched_token_get_spec "c" "u" "p" (fun _ => ⟨403, "nope"⟩)).2.2 (by decide)

/-- Claim C10: for every run of `fetch_transactions`, if captcha-token
acquisition yields no token (`None`, or an empty string, both falsy for
`if not captcha_token`), the function returns the structured failure with
error message "Failed to get captcha token" and performs zero first-factor
login submissions. -/
theorem fetch_transactions_no_token (outcomes : List AttemptOutcome)
    (post : List (String × String) → HttpResponse) (u p : String)
    (h : (get_captcha_token outcomes).1 = none
      ∨ (get_captcha_token outcomes).1 = some "") :
    fetch_transactions_auth outcomes post u p =
      (.failureResult "Failed to get captcha token", 0) := by
  rcases h with h | h <;> simp [fetch_transactions_auth, h]

/-- Witness for C10: a single timed-out captcha attempt yields no token, so
the run returns the structured failure and submits no login request even
though the POST oracle would answer 200. -/
theorem fetch_transactions_no_token_witness :
    fetch_transactions_auth [.timeoutExpired] (fun _ => ⟨200, "x"⟩) "user" "pw" =
      (.failureResult "Failed to get captcha token", 0) :=
  fetch_transactions_no_token [.timeoutExpired] (fun _ => ⟨200, "x"⟩) "user" "pw"
    (Or.inl rfl)
